import Mathlib

/-
Verification of the anomaly-scoring engine of the transactions_alert_system
repository (src/anomaly_detector.py, src/models.py).

Shallow embedding conventions:
* Counts are Int; all float computation is modelled exactly over Rat
  (every value a claim mentions is exactly representable).
* The square root inside pandas' Series.std is the only non-rational
  operation the code performs; no claim depends on its value, so baseline
  construction is parameterised by an arbitrary function sq : Rat -> Rat
  standing for sqrt.
* The sklearn IsolationForest is an external ML model; its per-row
  predictions enter the embedding as an oracle preds : Nat -> Int
  (the code only compares a prediction with -1).
* Python exceptions that the code catches are modelled by the caught
  branches' return values; the one uncaught exception (time-bucket parse
  failure inside update_baseline) is modelled with Except.
* Python dicts are modelled as functions to Option, updated with setKey.
-/

namespace TransactionsAlert

/-- models.py TransactionStatus: the closed status enum. -/
inductive TransactionStatus
  | approved
  | denied
  | reversed
  | refunded
  | processing
  | backend_reversed
  | failed
deriving DecidableEq, Repr

/-- The `.value` string of each enum member (models.py lines 10-17). -/
def statusValue : TransactionStatus → String
  | TransactionStatus.approved => "approved"
  | TransactionStatus.denied => "denied"
  | TransactionStatus.reversed => "reversed"
  | TransactionStatus.refunded => "refunded"
  | TransactionStatus.processing => "processing"
  | TransactionStatus.backend_reversed => "backend_reversed"
  | TransactionStatus.failed => "failed"

/-- Iteration order of `for status in TransactionStatus` (declaration order). -/
def allStatuses : List TransactionStatus :=
  [TransactionStatus.approved, TransactionStatus.denied, TransactionStatus.reversed,
   TransactionStatus.refunded, TransactionStatus.processing,
   TransactionStatus.backend_reversed, TransactionStatus.failed]

/-- anomaly_detector.py line 18: the statuses eligible for alerting. -/
def BAD_STATUS : List String := ["failed", "denied", "reversed", "backend_reversed"]

/-- models.py TransactionBase: one observation. -/
structure TransactionBase where
  time : String
  status : TransactionStatus
  count : Int
deriving DecidableEq, Repr

/-- models.py Stats (lines 61-65).  Its declared fields are exactly
`mean`, `std`, `p95`, `p99`.  There is NO `mad` field: the keyword
argument `mad=` passed at construction (anomaly_detector.py line 61) is
an extra field that pydantic silently discards, and the attribute read
`baseline.mad` (line 166) raises AttributeError. -/
structure Stats where
  mean : Rat
  std : Rat
  p95 : Rat
  p99 : Rat
deriving DecidableEq, Repr

/-- Reading the `mad` attribute of a Stats value.  models.Stats declares
only `mean`, `std`, `p95`, `p99`, so this attribute access always raises
AttributeError in the source; the embedding returns the corresponding
error. -/
def Stats.madAttr (_ : Stats) : Except String Rat :=
  Except.error ("AttributeError: Stats object has no attribute mad")

/-- models.py AlertLevel. -/
inductive AlertLevel
  | WARNING
  | CRITICAL
deriving DecidableEq, Repr

/-- models.py AnomalyBase: one anomaly record. -/
structure AnomalyBase where
  time : String
  status : TransactionStatus
  count : Int
  level : AlertLevel
  score : Rat
  message : String
deriving DecidableEq, Repr

/-- A Python dict keyed by κ, as a function to Option. -/
def setKey {κ α : Type} [DecidableEq κ] (f : κ → Option α) (k : κ) (v : α) :
    κ → Option α :=
  fun x => if x = k then some v else f x

/-- self.baseline_stats : dict[int, dict[str, Stats]]. -/
abbrev BaselineStore : Type := Int → Option (String → Option Stats)

/-- The empty dict. -/
def emptyStore : BaselineStore := fun _ => none

/-- Whitespace recognised by Python's int() argument stripping. -/
def isSpaceChar (c : Char) : Bool :=
  (c = ' ') || (c = '\t') || (c = '\n') || (c = '\r')

/-- Strip leading and trailing whitespace from a character list. -/
def trimChars (cs : List Char) : List Char :=
  ((cs.dropWhile isSpaceChar).reverse.dropWhile isSpaceChar).reverse

/-- Decimal digits to a natural number; none when empty or a non-digit is
present. -/
def digitsToNat (cs : List Char) : Option Nat :=
  match cs with
  | [] => none
  | _ =>
    if cs.all Char.isDigit then
      some (cs.foldl (fun n c => 10 * n + (c.toNat - 48)) 0)
    else none

/-- Python's int() on a string: strip whitespace, optional sign, decimal
digits; none where int() raises ValueError.  (Digit-group underscores and
non-ASCII digits, which Python also accepts, never occur in this data and
are not modelled.) -/
def parsePyInt (cs0 : List Char) : Option Int :=
  match trimChars cs0 with
  | '-' :: rest => (digitsToNat rest).map (fun n => -((n : Int)))
  | '+' :: rest => (digitsToNat rest).map (fun n => ((n : Int)))
  | rest => (digitsToNat rest).map (fun n => ((n : Int)))

/-- anomaly_detector.py lines 43-45: `int(time_str.split("h")[0])`, i.e.
Python's int() applied to the characters before the first literal h (the
whole string when no h occurs).  Returns none where int() raises
ValueError. -/
def extractHourFromTime (s : String) : Option Int :=
  parsePyInt (s.data.takeWhile (fun c => c ≠ 'h'))

/-- The all-or-nothing column computation `df["time"].apply(extract_hour)`
(anomaly_detector.py line 49): if any entry fails to parse the whole call
raises and no partial result is produced. -/
def traverseHours : List String → Option (List Int)
  | [] => some []
  | t :: ts =>
    match extractHourFromTime t, traverseHours ts with
    | some h, some hs => some (h :: hs)
    | _, _ => none

/-- First-occurrence deduplication, as pandas Series.unique. -/
def uniqueFirstAux {α : Type} [DecidableEq α] : List α → List α → List α
  | [], _ => []
  | h :: t, seen =>
    if h ∈ seen then uniqueFirstAux t seen else h :: uniqueFirstAux t (h :: seen)

/-- pandas Series.unique: distinct values in order of first appearance. -/
def uniqueFirst {α : Type} [DecidableEq α] (l : List α) : List α :=
  uniqueFirstAux l []

/-- Insertion into an ascending list, comparator le. -/
def insertOrd {α : Type} (le : α → α → Bool) (x : α) : List α → List α
  | [] => [x]
  | y :: t => if le x y then x :: y :: t else y :: insertOrd le x t

/-- Insertion sort (ascending), used to model pandas sorting. -/
def sortOrd {α : Type} (le : α → α → Bool) (l : List α) : List α :=
  l.foldr (insertOrd le) []

/-- Lexicographic order on character lists by code point: Python's
string comparison, which pandas uses to sort the time-bucket index. -/
def charListLe : List Char → List Char → Bool
  | [], _ => true
  | _ :: _, [] => false
  | a :: as, b :: bs =>
    if a = b then charListLe as bs else decide (a.toNat < b.toNat)

/-- Python string comparison. -/
def strLe (a b : String) : Bool := charListLe a.data b.data

/-
Rational arithmetic layer.  The library operations Rat.add, Rat.sub,
Rat.mul and Rat.inv do not reduce inside the kernel, so concrete runs of
the embedded code could not be checked by `decide` through them.  The
following q-operations implement exactly the same rational operations
through mkRat (which does reduce); the bridging theorems right below each
definition prove them equal to the library operation, so every embedded
computation is the standard rational one.
-/

/-- Rational addition via mkRat. -/
def qadd (a b : Rat) : Rat :=
  mkRat (a.num * (b.den : Int) + b.num * (a.den : Int)) (a.den * b.den)

/-- Rational subtraction via mkRat. -/
def qsub (a b : Rat) : Rat :=
  mkRat (a.num * (b.den : Int) - b.num * (a.den : Int)) (a.den * b.den)

/-- Rational multiplication via mkRat. -/
def qmul (a b : Rat) : Rat := mkRat (a.num * b.num) (a.den * b.den)

/-- Rational inverse via mkRat. -/
def qinv (a : Rat) : Rat :=
  if 0 ≤ a.num then mkRat (a.den : Int) a.num.toNat
  else mkRat (-(a.den : Int)) a.num.natAbs

/-- Rational division via mkRat. -/
def qdiv (a b : Rat) : Rat := qmul a (qinv b)

/-- Sum of a list of rationals. -/
def qsum (l : List Rat) : Rat := l.foldl qadd 0

/-- Arithmetic mean of a list of counts (pandas Series.mean). -/
def listMean (l : List Int) : Rat :=
  qdiv (qsum (l.map (fun x => ((x : Rat))))) ((l.length : Rat))

/-- Sample variance with ddof = 1 (the quantity whose square root pandas
Series.std returns for two or more points). -/
def sampleVar (l : List Int) : Rat :=
  qdiv (qsum (l.map (fun x => qmul (qsub ((x : Rat)) (listMean l)) (qsub ((x : Rat)) (listMean l)))))
    (qsub ((l.length : Rat)) 1)

/-- pandas Series.quantile with the default linear interpolation. -/
def pandasQuantile (q : Rat) (l : List Int) : Rat :=
  let s := sortOrd (fun a b => decide (a ≤ b)) l
  if s.length = 0 then 0
  else
    let pos : Rat := qmul q (qsub ((s.length : Rat)) 1)
    let i : Nat := pos.floor.toNat
    let fr : Rat := qsub pos ((i : Rat))
    let xi : Rat := ((s.getD i 0 : Int) : Rat)
    let xj : Rat := ((s.getD (min (i + 1) (s.length - 1)) 0 : Int) : Rat)
    qadd xi (qmul fr (qsub xj xi))

/-- The Stats constructed at anomaly_detector.py lines 56-64 from the
selected counts.  std: Series.std() is NaN for fewer than two points and
the code substitutes 1.0, otherwise it is sq of the sample variance.
The median of the counts is also computed and passed as the keyword
argument `mad=`, which is not a field of Stats and is discarded
(see Stats.madAttr). -/
def computeStats (sq : Rat → Rat) (counts : List Int) : Stats :=
  let _mad := pandasQuantile (1 / 2) counts
  { mean := listMean counts
    std := if counts.length < 2 then 1 else sq (sampleVar counts)
    p95 := pandasQuantile (95 / 100) counts
    p99 := pandasQuantile (99 / 100) counts }

/-- The inner dict built by the status loop of
_get_baseline_by_hour_and_status (anomaly_detector.py lines 52-65).
NOTE (faithful to the source): the selection at line 54 is
`df[df["status"] == status.value]` - it filters on status ONLY; the
parsed hour column added at line 49 is never used in the selection, so
the dict built for every hour is the same. -/
def innerDictFor (sq : Rat → Rat) (df : List TransactionBase) : String → Option Stats :=
  allStatuses.foldl
    (fun inn status =>
      let status_data := df.filter (fun tx => statusValue tx.status == statusValue status)
      if status_data.isEmpty then inn
      else setKey inn (statusValue status) (computeStats sq (status_data.map (fun tx => tx.count))))
    (fun _ => none)

/-- anomaly_detector.py lines 47-65: parse the hour of every observation
(all-or-nothing; a parse failure raises before any mutation), then for
each distinct hour store the status-keyed dict.  The prior store is NOT
cleared: only the hours present in df are assigned. -/
def getBaselineByHourAndStatus (sq : Rat → Rat) (store : BaselineStore)
    (df : List TransactionBase) : Except String BaselineStore :=
  match traverseHours (df.map (fun tx => tx.time)) with
  | none => Except.error ("ValueError: invalid literal for int with base 10")
  | some hours =>
    Except.ok ((uniqueFirst hours).foldl
      (fun st hour => setKey st hour (innerDictFor sq df)) store)

/-- The row index of the feature table built by _prepare_features_dataframe
(anomaly_detector.py lines 96-143): one row per distinct time bucket,
sorted ascending by the time string.  The numeric feature columns feed
only the external IsolationForest (whose verdicts are an oracle here), so
the embedding keeps just the row index. -/
def featureRows (txs : List TransactionBase) : List String :=
  sortOrd strLe (uniqueFirst (txs.map (fun tx => tx.time)))

/-- Outcome of _train_isolation_forest (anomaly_detector.py lines 80-94):
fitted (the model is fit), skippedNote (the insufficient-data message is
printed, no fit), or noop (features absent or empty: nothing happens). -/
inductive TrainOutcome
  | fitted
  | skippedNote
  | noop
deriving DecidableEq, Repr

/-- anomaly_detector.py lines 80-94: train only when the feature table
exists, is non-empty, and `len(X) > 10`. -/
def trainIsolationForest (feat : Option (List String)) : TrainOutcome :=
  match feat with
  | none => TrainOutcome.noop
  | some rows =>
    if rows.isEmpty then TrainOutcome.noop
    else if 10 < rows.length then TrainOutcome.fitted
    else TrainOutcome.skippedNote

/-- The engine state: baseline_stats, baseline_features_df (row index) and
whether the isolation forest has been fit. -/
structure DetectorState where
  baseline_stats : BaselineStore
  baseline_features_df : Option (List String)
  forest_trained : Bool

/-- The state of a detector constructed over an empty transactions table
(__init__ with _load_baseline finding no rows: nothing is trained). -/
def initialState : DetectorState :=
  { baseline_stats := emptyStore, baseline_features_df := none, forest_trained := false }

/-- anomaly_detector.py lines 252-269 update_baseline: rebuild the
baseline dict for the hours present in the batch, rebuild the feature
table, retrain.  A time-bucket parse failure raises out of
_get_baseline_by_hour_and_status before any state is mutated, which the
embedding renders as Except.error (no new state is produced).  The
session.add persistence loop is collaborator I/O and is not modelled. -/
def updateBaseline (sq : Rat → Rat) (st : DetectorState) (df : List TransactionBase) :
    Except String DetectorState :=
  match getBaselineByHourAndStatus sq st.baseline_stats df with
  | Except.error e => Except.error e
  | Except.ok store' =>
    let feat := featureRows df
    Except.ok
      { baseline_stats := store'
        baseline_features_df := some feat
        forest_trained :=
          if trainIsolationForest (some feat) = TrainOutcome.fitted then true
          else st.forest_trained }

/-- Outcome of the (hour, status) baseline lookup that _calculate_z_score
(lines 154-163) and _determine_alert_level (lines 181-189) both perform:
the hour parse may raise (caught by each function's except), the hour or
the status key may be absent, or an entry is found. -/
inductive LookupResult
  | parseError
  | missing
  | found (stats : Stats)

/-- The shared baseline lookup of _calculate_z_score and
_determine_alert_level. -/
def lookupBaseline (store : BaselineStore) (tx : TransactionBase) : LookupResult :=
  match extractHourFromTime tx.time with
  | none => LookupResult.parseError
  | some hour =>
    match store hour with
    | none => LookupResult.missing
    | some inner =>
      match inner (statusValue tx.status) with
      | none => LookupResult.missing
      | some stats => LookupResult.found stats

/-- anomaly_detector.py lines 151-174 _calculate_z_score.  The read of
`baseline.mad` raises AttributeError (Stats has no mad field); the
surrounding try/except turns any exception into (0.0, 0.0, message). -/
def calculateZScore (store : BaselineStore) (tx : TransactionBase) :
    Rat × Rat × String :=
  match lookupBaseline store tx with
  | LookupResult.parseError => (0, 0, "Error calculating z-score: invalid time")
  | LookupResult.missing => (0, 0, "No baseline data available")
  | LookupResult.found baseline =>
    match Stats.madAttr baseline with
    | Except.error e => (0, 0, "Error calculating z-score: " ++ e)
    | Except.ok mad =>
      (qdiv (qsub ((tx.count : Rat)) baseline.mean)
          (max 1 (if 0 < mad then qmul (mkRat 14826 10000) mad else baseline.std)),
       max 1 (if 0 < mad then qmul (mkRat 14826 10000) mad else baseline.std),
       "Z-score calculated successfully")

/-- The baseline entry an observation is scored against. -/
def baselineAt (store : BaselineStore) (tx : TransactionBase) : Option Stats :=
  match lookupBaseline store tx with
  | LookupResult.found stats => some stats
  | _ => none

/-- anomaly_detector.py lines 176-208 _determine_alert_level. -/
def determineAlertLevel (store : BaselineStore) (tx : TransactionBase)
    (z : Rat) (iso : Int) : Option AlertLevel × String :=
  match lookupBaseline store tx with
  | LookupResult.parseError => (none, "Error determining alert level: invalid time")
  | LookupResult.missing => (none, "No baseline data available")
  | LookupResult.found baseline =>
    if (baseline.p99 < (tx.count : Rat) ∧ 3 < |z|) ∧ iso = -1 then
      (some AlertLevel.CRITICAL, "CRITICAL: count exceeds 99th percentile and z-score > 3, isolation forest: anomaly")
    else if (baseline.p95 < (tx.count : Rat) ∧ 2 < |z|) ∧ iso = -1 then
      (some AlertLevel.WARNING, "WARNING: count exceeds 95th percentile and z-score > 2, isolation forest: anomaly")
    else (none, "No alert level determined")

/-- anomaly_detector.py lines 210-250 _analyze_transaction: only BAD
statuses are considered; the observation's feature row is located by time
(skip when absent); the isolation verdict at that row index and the
z-score feed _determine_alert_level. -/
def analyzeTransaction (store : BaselineStore) (rows : List String)
    (preds : Nat → Int) (tx : TransactionBase) : Option AnomalyBase :=
  if BAD_STATUS.contains (statusValue tx.status) then
    match rows.findIdx? (fun t => t == tx.time) with
    | none => none
    | some idx =>
      match determineAlertLevel store tx ((calculateZScore store tx).1) (preds idx) with
      | (some level, msg) =>
        some { time := tx.time, status := tx.status, count := tx.count,
               level := level, score := (calculateZScore store tx).1, message := msg }
      | (none, _) => none
  else none

/-- The per-observation body of the untrained fallback loop of
detect_anomalies (anomaly_detector.py lines 290-303). -/
def zScoreOnlyAnalyze (store : BaselineStore) (tx : TransactionBase) :
    Option AnomalyBase :=
  if BAD_STATUS.contains (statusValue tx.status) then
    if 3 < |(calculateZScore store tx).1| then
      some { time := tx.time, status := tx.status, count := tx.count,
             level := AlertLevel.WARNING, score := (calculateZScore store tx).1,
             message := "Z-score based alert" }
    else none
  else none

/-- anomaly_detector.py lines 271-329 detect_anomalies: empty batch short
circuit; untrained fallback (z-score only, WARNING when abs z > 3);
otherwise feature table + isolation verdicts + per-transaction analysis.
The debug CSV write at the end is collaborator I/O and is not modelled. -/
def detectAnomalies (st : DetectorState) (preds : Nat → Int)
    (txs : List TransactionBase) : List AnomalyBase :=
  if txs.isEmpty then []
  else if st.forest_trained = false then
    txs.filterMap (zScoreOnlyAnalyze st.baseline_stats)
  else
    txs.filterMap (analyzeTransaction st.baseline_stats (featureRows txs) preds)

/-- Lookup of one (hour, status) entry in the store produced by
update_baseline (none when the call failed or no entry exists). -/
def storeLookup (r : Except String DetectorState) (h : Int) (s : String) :
    Option Stats :=
  match r with
  | Except.error _ => none
  | Except.ok st =>
    match st.baseline_stats h with
    | none => none
    | some inner => inner s

/-- The forest_trained flag after an update_baseline call. -/
def trainedAfter (r : Except String DetectorState) : Option Bool :=
  match r with
  | Except.error _ => none
  | Except.ok st => some st.forest_trained

/-- The observation of the worked spec example: time "00h 05", status
failed, count 40. -/
def txC2 : TransactionBase :=
  { time := "00h 05", status := TransactionStatus.failed, count := 40 }

/-- The baseline entry of the worked spec example: mean 10, std 2,
p95 14, p99 18 (these are all the fields models.Stats has). -/
def statsC2 : Stats := { mean := 10, std := 2, p95 := 14, p99 := 18 }

/-- A store whose only entry, at (hour 0, status failed), is statsC2. -/
def storeC2 : BaselineStore :=
  setKey emptyStore 0 (setKey (fun _ => none) ("failed") statsC2)

/-- Engine state for the untrained worked example. -/
def stC2 : DetectorState :=
  { baseline_stats := storeC2, baseline_features_df := none, forest_trained := false }

/-- Engine state for the trained worked example. -/
def stC3 : DetectorState :=
  { baseline_stats := storeC2, baseline_features_df := none, forest_trained := true }

/-- A two-hour historical batch: (00h 00, failed, 10) and
(01h 00, failed, 30). -/
def dfC1 : List TransactionBase :=
  [{ time := "00h 00", status := TransactionStatus.failed, count := 10 },
   { time := "01h 00", status := TransactionStatus.failed, count := 30 }]

/-- A pre-existing baseline entry at hour 5. -/
def statsPrev : Stats := { mean := 5, std := 1, p95 := 7, p99 := 9 }

/-- A prior engine state holding an entry for (hour 5, status failed). -/
def stPrior : DetectorState :=
  { baseline_stats := setKey emptyStore 5 (setKey (fun _ => none) ("failed") statsPrev)
    baseline_features_df := none
    forest_trained := false }

/-- A historical batch with exactly ten distinct time buckets. -/
def df10 : List TransactionBase :=
  [{ time := "00h 00", status := TransactionStatus.failed, count := 1 },
   { time := "00h 01", status := TransactionStatus.failed, count := 1 },
   { time := "00h 02", status := TransactionStatus.failed, count := 1 },
   { time := "00h 03", status := TransactionStatus.failed, count := 1 },
   { time := "00h 04", status := TransactionStatus.failed, count := 1 },
   { time := "00h 05", status := TransactionStatus.failed, count := 1 },
   { time := "00h 06", status := TransactionStatus.failed, count := 1 },
   { time := "00h 07", status := TransactionStatus.failed, count := 1 },
   { time := "00h 08", status := TransactionStatus.failed, count := 1 },
   { time := "00h 09", status := TransactionStatus.failed, count := 1 }]


/-- Key fields an observation contributes to a record. -/
def obsKey (tx : TransactionBase) : String × TransactionStatus × Int :=
  (tx.time, tx.status, tx.count)

/-- Key fields of an anomaly record. -/
def recKey (r : AnomalyBase) : String × TransactionStatus × Int :=
  (r.time, r.status, r.count)

/-- An observation whose time bucket cannot be parsed into an hour. -/
def txBad : TransactionBase :=
  { time := "bad time", status := TransactionStatus.failed, count := 1 }

/-- qadd is rational addition. -/
theorem qadd_eq_add (a b : Rat) : qadd a b = a + b := by
  have ha : ((a.den : Int)) ≠ 0 := Int.natCast_ne_zero.mpr a.den_nz
  have hb : ((b.den : Int)) ≠ 0 := Int.natCast_ne_zero.mpr b.den_nz
  rw [qadd, Rat.mkRat_eq_divInt]
  conv_rhs => rw [← Rat.num_divInt_den a, ← Rat.num_divInt_den b]
  rw [Rat.divInt_add_divInt _ _ ha hb, Nat.cast_mul]

/-- qsub is rational subtraction. -/
theorem qsub_eq_sub (a b : Rat) : qsub a b = a - b := by
  have ha : ((a.den : Int)) ≠ 0 := Int.natCast_ne_zero.mpr a.den_nz
  have hb : ((b.den : Int)) ≠ 0 := Int.natCast_ne_zero.mpr b.den_nz
  rw [qsub, Rat.mkRat_eq_divInt]
  conv_rhs => rw [← Rat.num_divInt_den a, ← Rat.num_divInt_den b]
  rw [Rat.divInt_sub_divInt _ _ ha hb, Nat.cast_mul]

/-- qmul is rational multiplication. -/
theorem qmul_eq_mul (a b : Rat) : qmul a b = a * b := by
  rw [qmul, Rat.mkRat_eq_divInt]
  conv_rhs => rw [← Rat.num_divInt_den a, ← Rat.num_divInt_den b]
  rw [Rat.divInt_mul_divInt', Nat.cast_mul]

/-- qinv is the rational inverse. -/
theorem qinv_eq_inv (a : Rat) : qinv a = a⁻¹ := by
  rw [Rat.inv_def', qinv]
  by_cases h : 0 ≤ a.num
  · rw [if_pos h, Rat.mkRat_eq_divInt, Int.toNat_of_nonneg h]
  · rw [if_neg h, Rat.mkRat_eq_divInt]
    have : ((a.num.natAbs : Int)) = -a.num :=
      Int.ofNat_natAbs_of_nonpos (le_of_lt (lt_of_not_le h))
    rw [this, Rat.neg_divInt_neg]

/-- qdiv is rational division. -/
theorem qdiv_eq_div (a b : Rat) : qdiv a b = a / b := by
  rw [qdiv, qmul_eq_mul, qinv_eq_inv, div_eq_mul_inv]

/-- Membership in uniqueFirstAux. -/
theorem mem_uniqueFirstAux {α : Type} [DecidableEq α] :
    ∀ (l seen : List α) (x : α), x ∈ uniqueFirstAux l seen ↔ (x ∈ l ∧ x ∉ seen) := by
  intro l
  induction l with
  | nil => intro seen x; simp [uniqueFirstAux]
  | cons a t ih =>
    intro seen x
    unfold uniqueFirstAux
    by_cases ha : a ∈ seen
    · rw [if_pos ha, ih]
      constructor
      · rintro ⟨hx, hns⟩
        exact ⟨List.mem_cons_of_mem _ hx, hns⟩
      · rintro ⟨hx, hns⟩
        rcases List.mem_cons.mp hx with rfl | hx'
        · exact absurd ha hns
        · exact ⟨hx', hns⟩
    · rw [if_neg ha]
      constructor
      · intro hx
        rcases List.mem_cons.mp hx with rfl | hx'
        · exact ⟨List.mem_cons_self _ _, ha⟩
        · obtain ⟨h1, h2⟩ := (ih _ _).mp hx'
          exact ⟨List.mem_cons_of_mem _ h1,
            fun hx2 => h2 (List.mem_cons_of_mem _ hx2)⟩
      · rintro ⟨hx, hns⟩
        rcases List.mem_cons.mp hx with rfl | hx'
        · exact List.mem_cons_self _ _
        · by_cases hxa : x = a
          · subst hxa
            exact List.mem_cons_self _ _
          · refine List.mem_cons_of_mem _ ((ih _ _).mpr ⟨hx', ?_⟩)
            intro hmem
            rcases List.mem_cons.mp hmem with h1 | h1
            · exact hxa h1
            · exact hns h1

/-- Membership in uniqueFirst. -/
theorem mem_uniqueFirst {α : Type} [DecidableEq α] (l : List α) (x : α) :
    x ∈ uniqueFirst l ↔ x ∈ l := by
  rw [uniqueFirst, mem_uniqueFirstAux]
  simp

/-- Looking up a key after folding constant-valued setKey updates over a
list of keys. -/
theorem foldl_setKey_lookup (inner : String → Option Stats) :
    ∀ (hrs : List Int) (st : BaselineStore) (h : Int),
      (hrs.foldl (fun s hour => setKey s hour inner) st) h =
        if h ∈ hrs then some inner else st h := by
  intro hrs
  induction hrs with
  | nil => intro st h; simp
  | cons a t ih =>
    intro st h
    rw [List.foldl_cons, ih]
    by_cases ht : h ∈ t
    · rw [if_pos ht, if_pos (List.mem_cons_of_mem _ ht)]
    · rw [if_neg ht]
      by_cases hha : h = a
      · subst hha
        rw [if_pos (List.mem_cons_self _ _)]
        simp [setKey]
      · rw [if_neg (fun hm => (List.mem_cons.mp hm).elim hha ht)]
        simp [setKey, hha]

/-- A failing entry makes the whole hour-column computation fail. -/
theorem traverseHours_none {ts : List String} {t : String}
    (ht : t ∈ ts) (hn : extractHourFromTime t = none) : traverseHours ts = none := by
  induction ts with
  | nil => cases ht
  | cons a l ih =>
    rcases List.mem_cons.mp ht with rfl | hmem
    · unfold traverseHours
      rw [hn]
    · unfold traverseHours
      rw [ih hmem]
      cases extractHourFromTime a <;> rfl

/-- Spec of a successful untrained-path analysis. -/
theorem zScoreOnlyAnalyze_some {store : BaselineStore} {tx : TransactionBase}
    {r : AnomalyBase} (h : zScoreOnlyAnalyze store tx = some r) :
    BAD_STATUS.contains (statusValue tx.status) = true ∧
    r.time = tx.time ∧ r.status = tx.status ∧ r.count = tx.count ∧
    r.level = AlertLevel.WARNING ∧ r.score = (calculateZScore store tx).1 ∧
    3 < |(calculateZScore store tx).1| := by
  unfold zScoreOnlyAnalyze at h
  split at h
  · split at h
    · cases h
      exact ⟨by assumption, rfl, rfl, rfl, rfl, rfl, by assumption⟩
    · cases h
  · cases h

/-- When the isolation verdict is not -1, no alert level is produced. -/
theorem determineAlertLevel_none_of_iso (store : BaselineStore) (tx : TransactionBase)
    (z : Rat) (iso : Int) (hiso : iso ≠ -1) :
    (determineAlertLevel store tx z iso).1 = none := by
  unfold determineAlertLevel
  split
  · rfl
  · rfl
  · rw [if_neg (fun hc => hiso hc.2), if_neg (fun hc => hiso hc.2)]

/-- Spec of a produced alert level. -/
theorem determineAlertLevel_some {store : BaselineStore} {tx : TransactionBase}
    {z : Rat} {iso : Int} {lvl : AlertLevel} {msg : String}
    (h : determineAlertLevel store tx z iso = (some lvl, msg)) :
    iso = -1 ∧ ∃ stats, baselineAt store tx = some stats ∧
      ((lvl = AlertLevel.CRITICAL ∧ stats.p99 < (tx.count : Rat) ∧ 3 < |z|) ∨
       (lvl = AlertLevel.WARNING ∧ stats.p95 < (tx.count : Rat) ∧ 2 < |z|)) := by
  unfold determineAlertLevel at h
  unfold baselineAt
  split at h
  · simp at h
  · simp at h
  · rename_i stats heq
    rw [heq]
    by_cases hc1 : (stats.p99 < (tx.count : Rat) ∧ 3 < |z|) ∧ iso = -1
    · rw [if_pos hc1] at h
      cases h
      exact ⟨hc1.2, stats, rfl, Or.inl ⟨rfl, hc1.1.1, hc1.1.2⟩⟩
    · rw [if_neg hc1] at h
      by_cases hc2 : (stats.p95 < (tx.count : Rat) ∧ 2 < |z|) ∧ iso = -1
      · rw [if_pos hc2] at h
        cases h
        exact ⟨hc2.2, stats, rfl, Or.inr ⟨rfl, hc2.1.1, hc2.1.2⟩⟩
      · rw [if_neg hc2] at h
        simp at h

/-- Spec of a successful trained-path analysis. -/
theorem analyzeTransaction_some {store : BaselineStore} {rows : List String}
    {preds : Nat → Int} {tx : TransactionBase} {r : AnomalyBase}
    (h : analyzeTransaction store rows preds tx = some r) :
    BAD_STATUS.contains (statusValue tx.status) = true ∧
    r.time = tx.time ∧ r.status = tx.status ∧ r.count = tx.count ∧
    r.score = (calculateZScore store tx).1 ∧
    ∃ i, rows.findIdx? (fun t => t == tx.time) = some i ∧ preds i = -1 ∧
      ∃ stats, baselineAt store tx = some stats ∧
        ((r.level = AlertLevel.CRITICAL ∧ stats.p99 < (tx.count : Rat) ∧
            3 < |(calculateZScore store tx).1|) ∨
         (r.level = AlertLevel.WARNING ∧ stats.p95 < (tx.count : Rat) ∧
            2 < |(calculateZScore store tx).1|)) := by
  unfold analyzeTransaction at h
  split at h
  · split at h
    · cases h
    · rename_i i hidx
      split at h
      · rename_i level msg heq
        cases h
        obtain ⟨hiso, stats, hba, hcond⟩ := determineAlertLevel_some heq
        exact ⟨by assumption, rfl, rfl, rfl, rfl, i, hidx, hiso, stats, hba, hcond⟩
      · cases h
  · cases h

/-- filterMap results all satisfy a predicate implied by production. -/
theorem all_filterMap {α β : Type} (f : α → Option β) (p : β → Bool) (l : List α)
    (H : ∀ a b, f a = some b → p b = true) : (l.filterMap f).all p = true := by
  induction l with
  | nil => rfl
  | cons a t ih =>
    rw [List.filterMap_cons]
    cases hfa : f a with
    | none => exact ih
    | some b => simp [List.all_cons, H a b hfa, ih]

/-- Keys of filterMap results form a sublist of the keys of the input. -/
theorem map_filterMap_sublist {α β γ : Type} (f : α → Option β) (g : β → γ) (k : α → γ)
    (l : List α) (H : ∀ a b, f a = some b → g b = k a) :
    List.Sublist ((l.filterMap f).map g) (l.map k) := by
  induction l with
  | nil => simp
  | cons a t ih =>
    rw [List.filterMap_cons, List.map_cons]
    cases hfa : f a with
    | none => exact List.Sublist.cons _ ih
    | some b =>
      rw [List.map_cons, H a b hfa]
      exact List.Sublist.cons₂ _ ih

/-- C1: the claim states that after update_baseline each (hour, status)
pair present in the batch has exactly one entry whose mean is the
arithmetic mean of the counts of the observations matching that hour AND
that status.  On the code this is false: the selection at
anomaly_detector.py line 54 filters on status only (the parsed hour
column of line 49 is never used in the selection), so every hour receives
the status-global statistics.  For the batch dfC1 =
[(00h 00, failed, 10), (01h 00, failed, 30)] the stored mean at both
(0, failed) and (1, failed) is 20, while the arithmetic mean of the
counts matching (hour 0, failed) is that of the single count [10],
namely 10. -/
theorem C1_hour_filter_missing :
    (storeLookup (updateBaseline (fun r => r) initialState dfC1) 0 ("failed")).map Stats.mean
        = some 20 ∧
    (storeLookup (updateBaseline (fun r => r) initialState dfC1) 1 ("failed")).map Stats.mean
        = some 20 ∧
    (dfC1.filter (fun tx =>
        decide (extractHourFromTime tx.time = some 0) &&
        decide (tx.status = TransactionStatus.failed))).map (fun tx => tx.count) = [10] ∧
    (20 : Rat) ≠ 10 :=
  ⟨by decide, by decide, by decide, by decide⟩

/-- C2: the claim expects one WARNING record with score 15.0 for the
observation (00h 05, failed, 40) against the baseline entry
(mean 10, std 2, p95 14, p99 18) with an untrained model.  On the code
detect_anomalies returns NO record: models.Stats has no mad field, so
_calculate_z_score raises AttributeError at `baseline.mad`, the except
returns (0.0, 0.0, error message), and the |z| > 3 test fails with
z = 0. -/
theorem C2_missing_mad_no_alert :
    detectAnomalies stC2 (fun _ => 1) [txC2] = [] ∧
    (calculateZScore storeC2 txC2).1 = 0 ∧
    (calculateZScore storeC2 txC2).2.2 =
      "Error calculating z-score: AttributeError: Stats object has no attribute mad" ∧
    (0 : Rat) ≠ 15 :=
  ⟨by decide, by decide, by decide, by decide⟩

/-- C3: with a trained model, a BAD observation whose feature row has
outlier verdict 1 never yields a record - in particular the observation
(00h 05, failed, 40) against the baseline (mean 10, std 2, p95 14,
p99 18) with verdict 1 yields no alert - and a record is produced only
when the level-appropriate percentile breach, the z-score breach, and
verdict -1 all hold. -/
theorem C3_verdict_gating :
    detectAnomalies stC3 (fun _ => 1) [txC2] = [] ∧
    (∀ (store : BaselineStore) (rows : List String) (preds : Nat → Int)
        (tx : TransactionBase) (i : Nat),
        rows.findIdx? (fun t => t == tx.time) = some i → preds i ≠ -1 →
        analyzeTransaction store rows preds tx = none) ∧
    (∀ (store : BaselineStore) (rows : List String) (preds : Nat → Int)
        (tx : TransactionBase) (r : AnomalyBase),
        analyzeTransaction store rows preds tx = some r →
        ∃ i, rows.findIdx? (fun t => t == tx.time) = some i ∧ preds i = -1 ∧
          ∃ stats, baselineAt store tx = some stats ∧
            ((r.level = AlertLevel.CRITICAL ∧ stats.p99 < (tx.count : Rat) ∧
                3 < |(calculateZScore store tx).1|) ∨
             (r.level = AlertLevel.WARNING ∧ stats.p95 < (tx.count : Rat) ∧
                2 < |(calculateZScore store tx).1|))) := by
  refine ⟨by decide, ?_, ?_⟩
  · intro store rows preds tx i hidx hpred
    unfold analyzeTransaction
    split
    · split
      · rfl
      · rename_i j hj
        rw [hidx] at hj
        cases hj
        have hnone := determineAlertLevel_none_of_iso store tx
          ((calculateZScore store tx).1) (preds i) hpred
        cases hd : determineAlertLevel store tx ((calculateZScore store tx).1) (preds i) with
        | mk l? m =>
          rw [hd] at hnone
          cases l? with
          | none => rfl
          | some lvl => exact absurd hnone (by simp)
    · rfl
  · intro store rows preds tx r h
    obtain ⟨-, -, -, -, -, i, hidx, hiso, stats, hba, hcond⟩ := analyzeTransaction_some h
    exact ⟨i, hidx, hiso, stats, hba, hcond⟩

/-- C3 witness: at rows = ["00h 05"], verdict function constantly 1, the
observation txC2 is analysed to none. -/
theorem C3_verdict_gating_witness :
    analyzeTransaction storeC2 ["00h 05"] (fun _ => 1) txC2 = none :=
  C3_verdict_gating.2.1 storeC2 ["00h 05"] (fun _ => 1) txC2 0 (by decide) (by decide)

/-- C4: the claim states update_baseline overwrites the whole store, so a
pre-existing entry at an hour absent from the batch is removed.  On the
code this is false: _get_baseline_by_hour_and_status only assigns the
hours present in the batch and never clears self.baseline_stats, so the
(hour 5, failed) entry of stPrior survives an update with batch dfC1
whose hours are [0, 1]. -/
theorem C4_stale_hour_retained :
    storeLookup (updateBaseline (fun r => r) stPrior dfC1) 5 ("failed") = some statsPrev ∧
    traverseHours (dfC1.map (fun tx => tx.time)) = some [0, 1] ∧
    (5 : Int) ∉ ([0, 1] : List Int) :=
  ⟨by decide, by decide, by decide⟩

/-- C4 (amended): after update_baseline, every hour present in the batch
maps to the status dict rebuilt from the batch, and every hour absent
from the batch keeps its prior entry (per-hour overwrite, prior hours
retained - no wholesale replacement). -/
theorem C4_hours_merged (sq : Rat → Rat) (st : DetectorState) (df : List TransactionBase)
    (hrs : List Int) (hp : traverseHours (df.map (fun tx => tx.time)) = some hrs) (h : Int) :
    ∃ st', updateBaseline sq st df = Except.ok st' ∧
      (h ∉ hrs → st'.baseline_stats h = st.baseline_stats h) ∧
      (h ∈ hrs → st'.baseline_stats h = some (innerDictFor sq df)) := by
  unfold updateBaseline getBaselineByHourAndStatus
  rw [hp]
  refine ⟨_, rfl, ?_, ?_⟩
  · intro hnot
    dsimp only
    rw [foldl_setKey_lookup, if_neg (fun hm => hnot ((mem_uniqueFirst _ _).mp hm))]
  · intro hin
    dsimp only
    rw [foldl_setKey_lookup, if_pos ((mem_uniqueFirst _ _).mpr hin)]

/-- C4 witness: updating stPrior with dfC1 (hours [0, 1]) keeps the
hour-5 entry and rebuilds hours 0 and 1. -/
theorem C4_hours_merged_witness :
    ∃ st', updateBaseline (fun r => r) stPrior dfC1 = Except.ok st' ∧
      ((5 : Int) ∉ ([0, 1] : List Int) → st'.baseline_stats 5 = stPrior.baseline_stats 5) ∧
      ((5 : Int) ∈ ([0, 1] : List Int) →
        st'.baseline_stats 5 = some (innerDictFor (fun r => r) dfC1)) :=
  C4_hours_merged (fun r => r) stPrior dfC1 [0, 1] (by decide) 5

/-- C5: the claim states training is skipped iff the feature table has
fewer than 10 rows, and fits with 10 or more.  On the code the test is
`len(X) > 10` (anomaly_detector.py line 90): a table of exactly 10 rows
is skipped with the insufficient-data note, and update_baseline on the
ten-bucket batch df10 leaves the forest untrained. -/
theorem C5_ten_rows_not_fitted :
    (featureRows df10).length = 10 ∧
    trainIsolationForest (some (featureRows df10)) = TrainOutcome.skippedNote ∧
    trainedAfter (updateBaseline (fun r => r) initialState df10) = some false :=
  ⟨by decide, by decide, by decide⟩

/-- C5 (amended): for a present, non-empty feature table, the model is
fit iff the table has more than 10 rows, and fitting is skipped with the
informational note iff it has at most 10 rows. -/
theorem C5_training_threshold (feat : List String) (hne : feat ≠ []) :
    (trainIsolationForest (some feat) = TrainOutcome.fitted ↔ 10 < feat.length) ∧
    (trainIsolationForest (some feat) = TrainOutcome.skippedNote ↔ feat.length ≤ 10) := by
  unfold trainIsolationForest
  dsimp only
  rw [if_neg (by simp [List.isEmpty_iff, hne])]
  by_cases hlen : 10 < feat.length
  · rw [if_pos hlen]
    exact ⟨⟨fun _ => hlen, fun _ => rfl⟩,
      ⟨fun hh => absurd hh (by decide), fun hle => absurd hle (by omega)⟩⟩
  · rw [if_neg hlen]
    exact ⟨⟨fun hh => absurd hh (by decide), fun hgt => absurd hgt hlen⟩,
      ⟨fun _ => by omega, fun _ => rfl⟩⟩

/-- C5 witness: a one-row feature table is in the skip regime. -/
theorem C5_training_threshold_witness :
    (trainIsolationForest (some ["00h 00"]) = TrainOutcome.fitted ↔
        10 < (["00h 00"] : List String).length) ∧
    (trainIsolationForest (some ["00h 00"]) = TrainOutcome.skippedNote ↔
        (["00h 00"] : List String).length ≤ 10) :=
  C5_training_threshold ["00h 00"] (by decide)

/-- C6: update_baseline fails whenever some observation's time bucket
does not parse to an hour.  The hour column is computed for the whole
batch before any state is touched (anomaly_detector.py line 49), so the
error surfaces to the caller with no partial processing: the embedding
returns Except.error and no new DetectorState (store and model) is
produced. -/
theorem C6_parse_failure_rejects (sq : Rat → Rat) (st : DetectorState)
    (df : List TransactionBase)
    (h : ∃ tx, tx ∈ df ∧ extractHourFromTime tx.time = none) :
    ∃ e, updateBaseline sq st df = Except.error e := by
  obtain ⟨tx, hmem, hn⟩ := h
  have hnone : traverseHours (df.map (fun tx => tx.time)) = none :=
    traverseHours_none (List.mem_map_of_mem _ hmem) hn
  refine ⟨"ValueError: invalid literal for int with base 10", ?_⟩
  unfold updateBaseline getBaselineByHourAndStatus
  rw [hnone]

/-- C6 witness: a batch holding the unparsable time "bad time" makes
update_baseline fail. -/
theorem C6_parse_failure_rejects_witness :
    ∃ e, updateBaseline (fun r => r) initialState [txBad] = Except.error e :=
  C6_parse_failure_rejects (fun r => r) initialState [txBad]
    ⟨txBad, by decide, by decide⟩

/-- C7: the claim states sigma is at least 1.0 for every observation
scored against an existing baseline entry.  On the code no scored
observation ever reaches the sigma computation: `baseline.mad` raises
AttributeError (Stats has no mad field), the except returns sigma 0.0.
At the entry (hour 0, failed) = statsC2 the observation txC2 is scored
with sigma 0.0 < 1.0. -/
theorem C7_sigma_not_floored :
    baselineAt storeC2 txC2 = some statsC2 ∧
    (calculateZScore storeC2 txC2).2.1 = 0 ∧
    ¬ ((1 : Rat) ≤ (calculateZScore storeC2 txC2).2.1) :=
  ⟨by decide, by decide, by decide⟩

/-- C8: every record produced by detect_anomalies, in the untrained
fallback as well as the trained path, carries a status in BAD_STATUS;
observations with any other status never produce a record. -/
theorem C8_records_bad_status (st : DetectorState) (preds : Nat → Int)
    (txs : List TransactionBase) :
    (detectAnomalies st preds txs).all
      (fun r => BAD_STATUS.contains (statusValue r.status)) = true := by
  unfold detectAnomalies
  split
  · rfl
  · split
    · refine all_filterMap _ _ _ ?_
      intro a b hab
      obtain ⟨hb, -, hst, -⟩ := zScoreOnlyAnalyze_some hab
      rw [hst]
      exact hb
    · refine all_filterMap _ _ _ ?_
      intro a b hab
      obtain ⟨hb, -, hst, -⟩ := analyzeTransaction_some hab
      rw [hst]
      exact hb

/-- C9: detect_anomalies is a total function of its inputs in the
embedding (scoring exceptions are caught per observation), the empty
batch yields the empty record list, and an observation whose time bucket
is absent from the feature table is skipped (analysed to none) rather
than aborting the batch. -/
theorem C9_detect_total :
    (∀ (st : DetectorState) (preds : Nat → Int), detectAnomalies st preds [] = []) ∧
    (∀ (store : BaselineStore) (rows : List String) (preds : Nat → Int)
        (tx : TransactionBase),
        rows.findIdx? (fun t => t == tx.time) = none →
        analyzeTransaction store rows preds tx = none) := by
  constructor
  · intro st preds
    rfl
  · intro store rows preds tx hn
    unfold analyzeTransaction
    split
    · rw [hn]
    · rfl

/-- C9 witness: with an empty feature table every observation is
skipped. -/
theorem C9_detect_total_witness :
    analyzeTransaction emptyStore [] (fun _ => 1) txC2 = none :=
  C9_detect_total.2 emptyStore [] (fun _ => 1) txC2 rfl

/-- C10: detect_anomalies produces at most one record per observation,
in input order, copying the observation's time, status and count, and
the record's score is the z-score computed for those fields (the record
keys form a sublist of the batch keys, and every record's score equals
the z-score of its own fields). -/
theorem C10_per_observation (st : DetectorState) (preds : Nat → Int)
    (txs : List TransactionBase) :
    List.Sublist ((detectAnomalies st preds txs).map recKey) (txs.map obsKey) ∧
    (detectAnomalies st preds txs).all
      (fun r => decide (r.score =
        (calculateZScore st.baseline_stats
          { time := r.time, status := r.status, count := r.count }).1)) = true := by
  unfold detectAnomalies
  split
  · exact ⟨List.nil_sublist _, rfl⟩
  · split
    · constructor
      · refine map_filterMap_sublist _ _ _ _ ?_
        intro a b hab
        obtain ⟨-, ht, hs, hc, -, -, -⟩ := zScoreOnlyAnalyze_some hab
        rw [recKey, obsKey, ht, hs, hc]
      · refine all_filterMap _ _ _ ?_
        intro a b hab
        obtain ⟨-, ht, hs, hc, -, hscore, -⟩ := zScoreOnlyAnalyze_some hab
        refine decide_eq_true ?_
        rw [ht, hs, hc, hscore]
    · constructor
      · refine map_filterMap_sublist _ _ _ _ ?_
        intro a b hab
        obtain ⟨-, ht, hs, hc, -⟩ := analyzeTransaction_some hab
        rw [recKey, obsKey, ht, hs, hc]
      · refine all_filterMap _ _ _ ?_
        intro a b hab
        obtain ⟨-, ht, hs, hc, hscore, -⟩ := analyzeTransaction_some hab
        refine decide_eq_true ?_
        rw [ht, hs, hc, hscore]

end TransactionsAlert
